import Mathlib

/-!
Shallow embedding of the message routing and reliable-delivery pipeline:
the task-router service (resolvers.js / router.js) and the delivery
service (consumer.js / deliveryHandlers.js).

Conventions of the embedding:
* JavaScript strings are `String`; optional / possibly-absent fields are
  `Option String`.
* External effects are made explicit: the Redis dedup cache is the list of
  currently live (unexpired) keys, RabbitMQ interaction is the list of
  enqueued `(queueName, message)` pairs on the router side and a
  `BrokerAction` (ack / nack) on the consumer side, MongoDB is a list of
  records, and `setTimeout` sleeps are collected as a list of waited
  milliseconds.
* Fallible external calls are driven by explicit oracles: `Faults` injects
  Redis errors and the `sendToQueue` return value; the simulated delivery
  action is an oracle `Nat → Option String` giving, per attempt, `none`
  for success or `some err` for a thrown delivery failure.
* `sha256` hex digests are modelled by an arbitrary function
  `hash : String → String`; every statement that needs the digest is
  quantified over (or instantiated at) such a function, which is sound for
  the equalities proved here because equal preimages give equal digests.
-/

namespace CommsCore

/-- GraphQL `Channel` enum: the schema admits exactly these three values. -/
inductive Chan
  | email
  | sms
  | whatsapp
deriving DecidableEq

/-- The string value of a channel, as it appears in JS. -/
def Chan.str : Chan → String
  | .email => "email"
  | .sms => "sms"
  | .whatsapp => "whatsapp"

/-- GraphQL `MessageInput`: `channel`, `recipient`, optional `subject`,
`body` (metadata is carried opaquely and never inspected). -/
structure Input where
  channel : Chan
  recipient : String
  subject : Option String
  body : String
  metadata : Option String
deriving DecidableEq

/-- Whitespace class of the JS regex `\s` (restricted to the ASCII range
plus NBSP; the inputs in this development are ASCII). -/
def jsSpace (c : Char) : Bool :=
  c = ' ' || c = '\t' || c = '\n' || c = '\r' || c = '\x0b' || c = '\x0c' || c = '\xa0'

/-- Split a character list at every occurrence of the separator `c`
(the semantics of JS `String.prototype.split` with a one-character
separator: `""` gives `[""]`, `"@@"` gives `["", "", ""]`). -/
def splitOnChar (c : Char) : List Char → List (List Char)
  | [] => [[]]
  | x :: xs =>
      let r := splitOnChar c xs
      if x = c then [] :: r
      else
        match r with
        | [] => [[x]]
        | y :: ys => (x :: y) :: ys

/-- Whether `t` has a `.` that is neither its first nor its last character;
this is exactly when `t` splits as `b ++ "." ++ c` with `b`, `c` nonempty. -/
def hasInnerDot (cs : List Char) : Bool :=
  (List.range cs.length).any fun i =>
    decide (1 ≤ i) && decide (i + 1 < cs.length) && (cs.getD i ' ' == '.')

/-- `isValidEmail` (resolvers.js): the anchored regex
`^[^\s@]+@[^\s@]+\.[^\s@]+$`, i.e. the string is `a@t` with `a` nonempty,
no whitespace or `@` anywhere, and `t` containing an inner dot (`t` is
`b ++ "." ++ c` with `b`, `c` nonempty, both free to contain further
dots). -/
def isValidEmail (s : String) : Bool :=
  match splitOnChar '@' s.data with
  | [a, t] =>
      !a.isEmpty && a.all (fun c => !jsSpace c) &&
      !t.isEmpty && t.all (fun c => !jsSpace c) &&
      hasInnerDot t
  | _ => false

/-- `isValidPhone` (resolvers.js): the anchored regex `^\+?[1-9]\d{1,14}$`. -/
def isValidPhone (s : String) : Bool :=
  let cs := s.data
  let r := match cs with
    | '+' :: rest => rest
    | _ => cs
  match r with
  | [] => false
  | c :: rest =>
      decide ('1' ≤ c) && decide (c ≤ '9') &&
      decide (1 ≤ rest.length) && decide (rest.length ≤ 14) &&
      rest.all (·.isDigit)

/-- The sha256 preimage of the dedup fingerprint (router.js
`checkDuplicate`): the template string `channel:recipient:body`. -/
def fingerprintInput (i : Input) : String :=
  i.channel.str ++ ":" ++ i.recipient ++ ":" ++ i.body

/-- The Redis key used by `checkDuplicate`: `dedup:<sha256 hex digest>`,
with the digest function passed in explicitly. -/
def dedupKey (hash : String → String) (i : Input) : String :=
  "dedup:" ++ hash (fingerprintInput i)

/-- Fault-injection oracle for the external calls of the router: whether the
Redis `get` throws, whether the Redis `setEx` throws, and the boolean
returned by RabbitMQ `sendToQueue`. -/
structure Faults where
  getErr : Bool
  setErr : Bool
  sendOk : Bool
deriving DecidableEq

/-- `checkDuplicate` (router.js 86-106): reads the dedup key; if present
returns `true`; otherwise writes it with a 24h expiry and returns `false`;
any thrown cache error is caught and the function returns `false`
(fail open). The cache is the list of live keys; the result pairs the
returned boolean with the cache after the call. -/
def checkDuplicate (hash : String → String) (f : Faults) (cache : List String)
    (i : Input) : Bool × List String :=
  if f.getErr then (false, cache)
  else if dedupKey hash i ∈ cache then (true, cache)
  else if f.setErr then (false, cache)
  else (false, dedupKey hash i :: cache)

/-- The static channel → queue mapping (router.js `QUEUES`). -/
def queueFor : Chan → String
  | .email => "email_queue"
  | .sms => "sms_queue"
  | .whatsapp => "whatsapp_queue"

/-- The serialized message the router enqueues (resolvers.js builds it,
router.js `routeMessage` adds `retryCount`, `maxRetries`, `subtraceId`). -/
structure RoutedMsg where
  messageId : String
  traceId : String
  subtraceId : String
  channel : Chan
  recipient : String
  subject : Option String
  body : String
  metadata : Option String
  retryCount : Nat
  maxRetries : Nat
  status : String
  timestamp : String
deriving DecidableEq

/-- GraphQL `MessageResponse`. -/
structure MessageResponse where
  success : Bool
  messageId : Option String
  traceId : String
  message : String
deriving DecidableEq

/-- The observable outcome of one `sendMessage` resolver call: the
response, the dedup cache after the call, and the messages enqueued. -/
structure SendOut where
  resp : MessageResponse
  cache : List String
  enqueued : List (String × RoutedMsg)
deriving DecidableEq

/-- The validation block of the `sendMessage` resolver (resolvers.js
429-449), in source order; returns the thrown error message, if any.
JS falsiness of a string is emptiness; of an optional subject it is
absence or emptiness. -/
def validateInput (i : Input) : Option String :=
  if i.recipient = "" ∨ i.body = "" then
    some "Recipient and body are required"
  else if i.channel = .email ∧ (i.subject = none ∨ i.subject = some "") then
    some "Subject is required for email messages"
  else if i.channel = .email ∧ !isValidEmail i.recipient then
    some "Invalid email address"
  else if (i.channel = .sms ∨ i.channel = .whatsapp) ∧ !isValidPhone i.recipient then
    some "Invalid phone number format"
  else
    none

/-- The `sendMessage` resolver (resolvers.js 419-508) composed with
`routeMessage` (router.js 108-178): validate; check duplicates; on a fresh
fingerprint build the message (`retryCount = 0`, `maxRetries = 3`,
`status = "queued"`) and submit it to the queue of the channel. A thrown
validation error, the duplicate outcome, and a failed `sendToQueue` each
produce a `success = false` response; only the duplicate path uses the
text `"Duplicate message detected"`, the thrown errors are surfaced as
`"Error: " ++ reason`. The generated identifiers and timestamp are passed
in as parameters. -/
def sendMessage (hash : String → String) (f : Faults) (cache : List String)
    (input : Input) (traceId messageId subtraceId timestamp : String) : SendOut :=
  match validateInput input with
  | some reason => ⟨⟨false, none, traceId, "Error: " ++ reason⟩, cache, []⟩
  | none =>
    let dup := checkDuplicate hash f cache input
    if dup.1 then
      ⟨⟨false, none, traceId, "Duplicate message detected"⟩, dup.2, []⟩
    else
      let msg : RoutedMsg :=
        ⟨messageId, traceId, subtraceId, input.channel, input.recipient,
          input.subject, input.body, input.metadata, 0, 3, "queued", timestamp⟩
      if f.sendOk then
        ⟨⟨true, some messageId, traceId, "Message queued successfully"⟩, dup.2,
          [(queueFor input.channel, msg)]⟩
      else
        ⟨⟨false, none, traceId, "Error: Failed to send message to queue"⟩, dup.2, []⟩

/-! ## Delivery service (consumer.js / deliveryHandlers.js) -/

/-- A queue message as the consumer destructures it
(`const { messageId, traceId, retryCount = 0, maxRetries = 3 } = message`):
the JS defaults for absent `retryCount` / `maxRetries` are applied here. -/
structure Payload where
  messageId : String
  traceId : String
  retryCount : Nat
  maxRetries : Nat
  recipient : String
  subject : Option String
  body : String
  metadata : Option String
deriving DecidableEq

/-- A MongoDB document of the `Message` collection (deliveryHandlers.js
`messageSchema`). Timestamps are abstract instants (`Nat`). -/
structure DeliveryRec where
  messageId : String
  traceId : String
  channel : String
  recipient : String
  subject : Option String
  body : String
  metadata : Option String
  status : String
  deliveredAt : Option Nat
  failedAt : Option Nat
  errorMessage : Option String
  retryCount : Nat
  createdAt : Nat
  updatedAt : Nat
deriving DecidableEq

/-- The fields a `findOneAndUpdate` call of a handler sets beyond the ones
copied from the message: an `Option` field set to `none` is absent from
the update document (left untouched on the stored record). `setSubject`
records whether the update document includes `subject` (the email handler
does, the sms/whatsapp handlers do not). `time` is `new Date()` at the
call. -/
structure StatusUpdate where
  channel : String
  setSubject : Bool
  status : String
  deliveredAt : Option Nat
  failedAt : Option Nat
  errorMessage : Option String
  retryCount : Option Nat
  time : Nat
deriving DecidableEq

/-- Applying the update document to an existing matched record: listed
fields are overwritten, absent fields are retained, `updatedAt` is set. -/
def applyUpd (p : Payload) (u : StatusUpdate) (r : DeliveryRec) : DeliveryRec :=
  { r with
    messageId := p.messageId
    traceId := p.traceId
    channel := u.channel
    recipient := p.recipient
    subject := if u.setSubject then p.subject else r.subject
    body := p.body
    metadata := p.metadata
    status := u.status
    deliveredAt := u.deliveredAt <|> r.deliveredAt
    failedAt := u.failedAt <|> r.failedAt
    errorMessage := u.errorMessage <|> r.errorMessage
    retryCount := u.retryCount.getD r.retryCount
    updatedAt := u.time }

/-- The document inserted by an upsert when no record matches: update
fields plus schema defaults (`retryCount = 0`, `createdAt = now`). -/
def newRec (p : Payload) (u : StatusUpdate) : DeliveryRec :=
  { messageId := p.messageId
    traceId := p.traceId
    channel := u.channel
    recipient := p.recipient
    subject := if u.setSubject then p.subject else none
    body := p.body
    metadata := p.metadata
    status := u.status
    deliveredAt := u.deliveredAt
    failedAt := u.failedAt
    errorMessage := u.errorMessage
    retryCount := u.retryCount.getD 0
    createdAt := u.time
    updatedAt := u.time }

/-- `Message.findOneAndUpdate({messageId}, update, {upsert: true})`:
update the first record whose `messageId` matches, or insert a new one. -/
def findOneAndUpdate (p : Payload) (u : StatusUpdate) : List DeliveryRec → List DeliveryRec
  | [] => [newRec p u]
  | r :: rs =>
      if r.messageId = p.messageId then applyUpd p u r :: rs
      else r :: findOneAndUpdate p u rs

/-- The update document of the success branch of a handler
(`status: "delivered", deliveredAt: now, updatedAt: now`). -/
def deliveredUpd (channel : String) (setSubject : Bool) (t : Nat) : StatusUpdate :=
  ⟨channel, setSubject, "delivered", some t, none, none, none, t⟩

/-- The update document of the catch branch of a handler (`status: "failed",
failedAt: now, errorMessage: err, retryCount: message.retryCount || 0,
updatedAt: now`). -/
def failedUpd (channel : String) (setSubject : Bool) (err : String) (rc : Nat)
    (t : Nat) : StatusUpdate :=
  ⟨channel, setSubject, "failed", none, some t, some err, some rc, t⟩

/-- What one handler call does as seen from the caller: either it
returns a `{success, error?}` object, or it throws. -/
inductive HandlerResult
  | returned (success : Bool) (error : Option String)
  | threw (error : String)
deriving DecidableEq

/-- The result of one handler call together with the database after the call
and the list of `status` values it persisted (in order). -/
structure HandlerOut where
  res : HandlerResult
  db : List DeliveryRec
  writes : List String
deriving DecidableEq

/-- A delivery handler, as invoked by `deliverWithRetry`: the first
argument is the attempt index, used to address the per-attempt outcome
oracle of the simulated delivery. -/
abbrev Handler := Nat → Payload → List DeliveryRec → HandlerOut

/-- `handleEmailDelivery` (deliveryHandlers.js 285-360): attempt the
delivery action; on success upsert the record to `delivered` and return
`{success: true}`; on a thrown delivery failure, catch it, upsert the
record to `failed` (with the error message and the current message
`retryCount` value) and return `{success: false, error}`. The handler itself
never throws here (database calls are modelled as succeeding). -/
def handleEmailDelivery (action : Nat → Option String) (t : Nat) : Handler :=
  fun attempt p db =>
    match action attempt with
    | none =>
        ⟨.returned true none, findOneAndUpdate p (deliveredUpd "email" true t) db,
          ["delivered"]⟩
    | some e =>
        ⟨.returned false (some e),
          findOneAndUpdate p (failedUpd "email" true e p.retryCount t) db,
          ["failed"]⟩

/-- `handleSMSDelivery` (deliveryHandlers.js 363-435): identical to the
email handler except for the channel string and the absence of `subject`
in the update documents. -/
def handleSMSDelivery (action : Nat → Option String) (t : Nat) : Handler :=
  fun attempt p db =>
    match action attempt with
    | none =>
        ⟨.returned true none, findOneAndUpdate p (deliveredUpd "sms" false t) db,
          ["delivered"]⟩
    | some e =>
        ⟨.returned false (some e),
          findOneAndUpdate p (failedUpd "sms" false e p.retryCount t) db,
          ["failed"]⟩

/-- `handleWhatsAppDelivery` (deliveryHandlers.js 438-510): identical to
the sms handler except for the channel string. -/
def handleWhatsAppDelivery (action : Nat → Option String) (t : Nat) : Handler :=
  fun attempt p db =>
    match action attempt with
    | none =>
        ⟨.returned true none,
          findOneAndUpdate p (deliveredUpd "whatsapp" false t) db, ["delivered"]⟩
    | some e =>
        ⟨.returned false (some e),
          findOneAndUpdate p (failedUpd "whatsapp" false e p.retryCount t) db,
          ["failed"]⟩

/-- The `HANDLERS` map of the consumer (consumer.js 22-26), keyed by the
channel-type string of the queue being consumed. -/
def HANDLERS (action : Nat → Option String) (t : Nat) (channelType : String) :
    Option Handler :=
  if channelType = "email" then some (handleEmailDelivery action t)
  else if channelType = "sms" then some (handleSMSDelivery action t)
  else if channelType = "whatsapp" then some (handleWhatsAppDelivery action t)
  else none

/-- `const delays = [1000, 2000, 4000]` (consumer.js 154). -/
def delays : List Nat := [1000, 2000, 4000]

/-- `delays[retryCount] || delays[delays.length - 1]` (consumer.js 161);
every tabulated delay is nonzero, so the JS `||` fires exactly on an
out-of-range index. -/
def delayFor (retryCount : Nat) : Nat :=
  (delays[retryCount]?).getD (delays.getLastD 0)

/-- Everything one `deliverWithRetry` call produces: the sleeps performed
(in order, in ms), the message object as mutated by the retry loop
(`message.retryCount` is incremented before each recursion), the database
and persisted statuses, and either the `(success, error?)` object the handler
returned or the error finally rethrown. -/
structure DWR where
  sleeps : List Nat
  msg : Payload
  db : List DeliveryRec
  writes : List String
  res : Except String (Bool × Option String)

/-- `deliverWithRetry` (consumer.js 153-181): call the handler; if it
returns, pass its result object through unchanged; if it throws and
`retryCount < maxRetries`, sleep `delays[retryCount] || last`, set
`message.retryCount = retryCount + 1` and recurse with
`retryCount + 1`; otherwise rethrow. -/
def deliverWithRetry (handler : Handler) (attempt : Nat) (p : Payload)
    (retryCount maxRetries : Nat) (db : List DeliveryRec) : DWR :=
  let h := handler attempt p db
  match h.res with
  | .returned s e => ⟨[], p, h.db, h.writes, .ok (s, e)⟩
  | .threw err =>
      if _hlt : retryCount < maxRetries then
        let p' := { p with retryCount := retryCount + 1 }
        let rest := deliverWithRetry handler (attempt + 1) p' (retryCount + 1)
          maxRetries h.db
        ⟨delayFor retryCount :: rest.sleeps, rest.msg, rest.db,
          h.writes ++ rest.writes, rest.res⟩
      else ⟨[], p, h.db, h.writes, .error err⟩
termination_by maxRetries - retryCount

/-- The final consumer instruction to the broker for one consumed
message. -/
inductive BrokerAction
  | ack
  | nackRequeue
  | nackDLQ
deriving DecidableEq

/-- The branch of `handleDeliveryError` (consumer.js 207-230) that decides
the broker instruction: `retryCount >= maxRetries` rejects without requeue
(the configured dead-letter route captures it), otherwise the message is
nacked with `requeue = true` back to its origin queue. -/
def handleDeliveryError (retryCount maxRetries : Nat) : BrokerAction :=
  if maxRetries ≤ retryCount then .nackDLQ else .nackRequeue

/-- The observable outcome of `processMessage` for one consumed message. -/
structure ProcOut where
  broker : BrokerAction
  sleeps : List Nat
  db : List DeliveryRec
  writes : List String
deriving DecidableEq

/-- `processMessage` (consumer.js 75-151): parse the payload (`none`
models a `JSON.parse` throw, in which case the catch block runs
`handleDeliveryError` with `message` undefined, so `retryCount`/
`maxRetries` take their defaults 0/3); look up the handler (an unknown
channel throws, reaching `handleDeliveryError` with the parsed message);
otherwise run `deliverWithRetry` and ack on `result.success`, while a
`success: false` result or a thrown error reaches `handleDeliveryError`,
which reads `retryCount`/`maxRetries` from the (possibly mutated) message
object. -/
def processMessage (parsed : Option Payload) (channelType : String)
    (handlerFor : String → Option Handler) (db : List DeliveryRec) : ProcOut :=
  match parsed with
  | none => ⟨handleDeliveryError 0 3, [], db, []⟩
  | some p =>
    match handlerFor channelType with
    | none => ⟨handleDeliveryError p.retryCount p.maxRetries, [], db, []⟩
    | some handler =>
      let d := deliverWithRetry handler 0 p p.retryCount p.maxRetries db
      match d.res with
      | .ok (true, _) => ⟨.ack, d.sleeps, d.db, d.writes⟩
      | .ok (false, _) =>
          ⟨handleDeliveryError d.msg.retryCount d.msg.maxRetries, d.sleeps, d.db,
            d.writes⟩
      | .error _ =>
          ⟨handleDeliveryError d.msg.retryCount d.msg.maxRetries, d.sleeps, d.db,
            d.writes⟩

/-! ## Concrete scenario data -/

/-- A delivery-action oracle that succeeds on every attempt. -/
def okAction : Nat → Option String := fun _ => none

/-- A delivery-action oracle that throws on every attempt, with the
message `simulateDelivery` produces for the email channel. -/
def failAction : Nat → Option String := fun _ => some "Simulated email delivery failure"

/-- A routed email payload as the router enqueues it
(`retryCount = 0`, `maxRetries = 3`). -/
def emailPayload : Payload :=
  ⟨"msg_1", "trace_1", 0, 3, "a@b.com", some "Hi", "x", none⟩

/-- The success-scenario input of the spec:
`{channel: "email", recipient: "a@b.com", subject: "Hi", body: "x"}`. -/
def validInput : Input := ⟨.email, "a@b.com", some "Hi", "x", none⟩

/-- The validation-failure scenario input of the spec:
`{channel: "sms", recipient: "not-a-phone", body: "x"}`. -/
def smsBadInput : Input := ⟨.sms, "not-a-phone", none, "x", none⟩

/-- First member of a fingerprint-colliding pair: recipient `a:b`,
body `c`. -/
def collideA : Input := ⟨.email, "a:b", some "Hi", "c", none⟩

/-- Second member of a fingerprint-colliding pair: recipient `a`,
body `b:c`; its `channel:recipient:body` join equals that of `collideA`. -/
def collideB : Input := ⟨.email, "a", some "Hi", "b:c", none⟩

/-- No injected faults: cache calls succeed, `sendToQueue` returns true. -/
def noFaults : Faults := ⟨false, false, true⟩

/-- Faults where only the broker submission fails
(`sendToQueue` returns false). -/
def sendFailFaults : Faults := ⟨false, false, false⟩

/-! ## Helper lemmas -/

theorem applyUpd_messageId (p : Payload) (u : StatusUpdate) (r : DeliveryRec) :
    (applyUpd p u r).messageId = p.messageId := by
  simp [applyUpd]

theorem newRec_messageId (p : Payload) (u : StatusUpdate) :
    (newRec p u).messageId = p.messageId := by
  simp [newRec]

theorem applyUpd_applyUpd (p : Payload) (u : StatusUpdate) (r : DeliveryRec) :
    applyUpd p u (applyUpd p u r) = applyUpd p u r := by
  cases hd : u.deliveredAt <;> cases hf : u.failedAt <;> cases he : u.errorMessage <;>
    cases hr : u.retryCount <;> cases hs : u.setSubject <;>
    simp [applyUpd, hd, hf, he, hr, hs]

theorem applyUpd_newRec (p : Payload) (u : StatusUpdate) :
    applyUpd p u (newRec p u) = newRec p u := by
  cases hd : u.deliveredAt <;> cases hf : u.failedAt <;> cases he : u.errorMessage <;>
    cases hr : u.retryCount <;> cases hs : u.setSubject <;>
    simp [applyUpd, newRec, hd, hf, he, hr, hs]

theorem findOneAndUpdate_self_idem (p : Payload) (u : StatusUpdate)
    (db : List DeliveryRec) :
    findOneAndUpdate p u (findOneAndUpdate p u db) = findOneAndUpdate p u db := by
  induction db with
  | nil =>
      simp [findOneAndUpdate, newRec_messageId, applyUpd_newRec]
  | cons r rs ih =>
      by_cases h : r.messageId = p.messageId
      · simp [findOneAndUpdate, h, applyUpd_messageId, applyUpd_applyUpd]
      · simp [findOneAndUpdate, h, ih]

theorem findOneAndUpdate_count_eq_one (p : Payload) (u : StatusUpdate)
    (db : List DeliveryRec)
    (hdb : (db.filter fun r => r.messageId == p.messageId).length ≤ 1) :
    ((findOneAndUpdate p u db).filter fun r => r.messageId == p.messageId).length = 1 := by
  induction db with
  | nil =>
      rw [findOneAndUpdate, List.filter_cons, if_pos (by simp [newRec_messageId])]
      rfl
  | cons r rs ih =>
      by_cases h : r.messageId = p.messageId
      · rw [findOneAndUpdate, if_pos h, List.filter_cons,
          if_pos (by simp [applyUpd_messageId])]
        have h1 : (rs.filter fun r => r.messageId == p.messageId).length = 0 := by
          have h2 := hdb
          rw [List.filter_cons, if_pos (by simp [h])] at h2
          simp only [List.length_cons] at h2
          omega
        rw [List.length_cons, h1]
      · rw [findOneAndUpdate, if_neg h, List.filter_cons, if_neg (by simp [h])]
        apply ih
        have h2 := hdb
        rw [List.filter_cons, if_neg (by simp [h])] at h2
        exact h2

theorem findOneAndUpdate_mem (p : Payload) (u : StatusUpdate) (db : List DeliveryRec) :
    ∃ r ∈ findOneAndUpdate p u db,
      r.messageId = p.messageId ∧ r.status = u.status ∧
      (∀ v, u.deliveredAt = some v → r.deliveredAt = some v) ∧
      (∀ v, u.failedAt = some v → r.failedAt = some v) ∧
      (∀ v, u.errorMessage = some v → r.errorMessage = some v) := by
  induction db with
  | nil =>
      refine ⟨newRec p u, by simp [findOneAndUpdate], ?_⟩
      refine ⟨newRec_messageId p u, by simp [newRec], ?_, ?_, ?_⟩ <;>
        intro v hv <;> simp [newRec, hv]
  | cons r rs ih =>
      by_cases h : r.messageId = p.messageId
      · refine ⟨applyUpd p u r, by simp [findOneAndUpdate, h], ?_⟩
        refine ⟨applyUpd_messageId p u r, by simp [applyUpd], ?_, ?_, ?_⟩ <;>
          intro v hv <;> simp [applyUpd, hv]
      · obtain ⟨r', hmem, hprops⟩ := ih
        exact ⟨r', by simp [findOneAndUpdate, h, hmem], hprops⟩

theorem deliverWithRetry_returned (handler : Handler) (attempt : Nat) (p : Payload)
    (rc mr : Nat) (db : List DeliveryRec) (s : Bool) (e : Option String)
    (h : (handler attempt p db).res = .returned s e) :
    deliverWithRetry handler attempt p rc mr db =
      ⟨[], p, (handler attempt p db).db, (handler attempt p db).writes, .ok (s, e)⟩ := by
  unfold deliverWithRetry
  simp only [h]

theorem processMessage_email_run (action : Nat → Option String) (t : Nat)
    (p : Payload) (db : List DeliveryRec) :
    processMessage (some p) "email" (HANDLERS action t) db =
      match action 0 with
      | none =>
          ⟨.ack, [], findOneAndUpdate p (deliveredUpd "email" true t) db,
            ["delivered"]⟩
      | some e =>
          ⟨handleDeliveryError p.retryCount p.maxRetries, [],
            findOneAndUpdate p (failedUpd "email" true e p.retryCount t) db,
            ["failed"]⟩ := by
  have hh : HANDLERS action t "email" = some (handleEmailDelivery action t) := rfl
  cases hact : action 0 with
  | none =>
      have hres : ((handleEmailDelivery action t) 0 p db).res = .returned true none := by
        simp [handleEmailDelivery, hact]
      simp only [processMessage, hh]
      rw [deliverWithRetry_returned _ _ _ _ _ _ _ _ hres]
      simp [handleEmailDelivery, hact]
  | some e =>
      have hres : ((handleEmailDelivery action t) 0 p db).res =
          .returned false (some e) := by
        simp [handleEmailDelivery, hact]
      simp only [processMessage, hh]
      rw [deliverWithRetry_returned _ _ _ _ _ _ _ _ hres]
      simp [handleEmailDelivery, hact]

theorem processMessage_sms_run (action : Nat → Option String) (t : Nat)
    (p : Payload) (db : List DeliveryRec) :
    processMessage (some p) "sms" (HANDLERS action t) db =
      match action 0 with
      | none =>
          ⟨.ack, [], findOneAndUpdate p (deliveredUpd "sms" false t) db,
            ["delivered"]⟩
      | some e =>
          ⟨handleDeliveryError p.retryCount p.maxRetries, [],
            findOneAndUpdate p (failedUpd "sms" false e p.retryCount t) db,
            ["failed"]⟩ := by
  have hh : HANDLERS action t "sms" = some (handleSMSDelivery action t) := rfl
  cases hact : action 0 with
  | none =>
      have hres : ((handleSMSDelivery action t) 0 p db).res = .returned true none := by
        simp [handleSMSDelivery, hact]
      simp only [processMessage, hh]
      rw [deliverWithRetry_returned _ _ _ _ _ _ _ _ hres]
      simp [handleSMSDelivery, hact]
  | some e =>
      have hres : ((handleSMSDelivery action t) 0 p db).res =
          .returned false (some e) := by
        simp [handleSMSDelivery, hact]
      simp only [processMessage, hh]
      rw [deliverWithRetry_returned _ _ _ _ _ _ _ _ hres]
      simp [handleSMSDelivery, hact]

theorem processMessage_whatsapp_run (action : Nat → Option String) (t : Nat)
    (p : Payload) (db : List DeliveryRec) :
    processMessage (some p) "whatsapp" (HANDLERS action t) db =
      match action 0 with
      | none =>
          ⟨.ack, [], findOneAndUpdate p (deliveredUpd "whatsapp" false t) db,
            ["delivered"]⟩
      | some e =>
          ⟨handleDeliveryError p.retryCount p.maxRetries, [],
            findOneAndUpdate p (failedUpd "whatsapp" false e p.retryCount t) db,
            ["failed"]⟩ := by
  have hh : HANDLERS action t "whatsapp" = some (handleWhatsAppDelivery action t) := rfl
  cases hact : action 0 with
  | none =>
      have hres : ((handleWhatsAppDelivery action t) 0 p db).res =
          .returned true none := by
        simp [handleWhatsAppDelivery, hact]
      simp only [processMessage, hh]
      rw [deliverWithRetry_returned _ _ _ _ _ _ _ _ hres]
      simp [handleWhatsAppDelivery, hact]
  | some e =>
      have hres : ((handleWhatsAppDelivery action t) 0 p db).res =
          .returned false (some e) := by
        simp [handleWhatsAppDelivery, hact]
      simp only [processMessage, hh]
      rw [deliverWithRetry_returned _ _ _ _ _ _ _ _ hres]
      simp [handleWhatsAppDelivery, hact]

/-! ## Claim theorems -/

/-- C8: for every input and every cache failure, the Deduplication Gate
fails open: if any cache operation during the duplicate check errors (the
`get`, or the `setEx` reached when the key was absent), `checkDuplicate`
returns `false` (`alreadyReserved = false`), so the request proceeds as a
non-duplicate; the cache is left unchanged. -/
theorem C8_cache_error_fails_open (hash : String → String) (f : Faults)
    (cache : List String) (i : Input)
    (herr : f.getErr = true ∨ (dedupKey hash i ∉ cache ∧ f.setErr = true)) :
    (checkDuplicate hash f cache i).1 = false ∧
    (checkDuplicate hash f cache i).2 = cache := by
  by_cases hg : f.getErr
  · simp [checkDuplicate, hg]
  · rcases herr with h | ⟨hmem, hset⟩
    · exact absurd h (by simpa using hg)
    · simp [checkDuplicate, hg, hmem, hset]

/-- Witness for C8 at a concrete erroring cache: the `get` throws, and the
gate reports "not a duplicate". -/
theorem C8_witness :
    (checkDuplicate id ⟨true, false, true⟩ [] validInput).1 = false ∧
    (checkDuplicate id ⟨true, false, true⟩ [] validInput).2 = [] :=
  C8_cache_error_fails_open id ⟨true, false, true⟩ [] validInput (Or.inl rfl)

/-- C9: the terminal status upsert (`findOneAndUpdate` keyed by
`messageId`, as invoked with the delivered/failed update
documents of the handlers) is idempotent: applying the same update twice equals applying
it once, and — given the unique-index invariant that the store holds at
most one record per `messageId` — exactly one record for that `messageId`
remains afterwards. -/
theorem C9_upsert_idempotent (p : Payload) (u : StatusUpdate) (db : List DeliveryRec)
    (hdb : (db.filter fun r => r.messageId == p.messageId).length ≤ 1) :
    findOneAndUpdate p u (findOneAndUpdate p u db) = findOneAndUpdate p u db ∧
    ((findOneAndUpdate p u db).filter fun r => r.messageId == p.messageId).length = 1 :=
  ⟨findOneAndUpdate_self_idem p u db, findOneAndUpdate_count_eq_one p u db hdb⟩

/-- Witness for C9: replaying the `delivered` outcome for `emailPayload`
against an empty store. -/
theorem C9_witness :
    findOneAndUpdate emailPayload (deliveredUpd "email" true 0)
        (findOneAndUpdate emailPayload (deliveredUpd "email" true 0) []) =
      findOneAndUpdate emailPayload (deliveredUpd "email" true 0) [] ∧
    ((findOneAndUpdate emailPayload (deliveredUpd "email" true 0) []).filter
        fun r => r.messageId == emailPayload.messageId).length = 1 :=
  C9_upsert_idempotent emailPayload (deliveredUpd "email" true 0) [] (by decide)

/-- C10: the dedup fingerprint hashes `channel ++ ":" ++ recipient ++ ":"
++ body`, so the distinct inputs `collideA` (recipient `a:b`, body `c`)
and `collideB` (recipient `a`, body `b:c`) share one preimage and hence
one cache key for every digest function; consequently, with the key of `collideA`
reserved, the never-seen input `collideB` is reported as a
duplicate. -/
theorem C10_fingerprint_collision (hash : String → String) (f : Faults)
    (cache : List String) (hget : f.getErr = false)
    (hmem : dedupKey hash collideA ∈ cache) :
    collideA ≠ collideB ∧
    fingerprintInput collideA = fingerprintInput collideB ∧
    dedupKey hash collideA = dedupKey hash collideB ∧
    (checkDuplicate hash f cache collideB).1 = true := by
  have hfp : fingerprintInput collideA = fingerprintInput collideB := by decide
  have hkey : dedupKey hash collideA = dedupKey hash collideB := by
    simp [dedupKey, hfp]
  refine ⟨by decide, hfp, hkey, ?_⟩
  rw [hkey] at hmem
  simp [checkDuplicate, hget, hmem]

/-- Witness for C10 with the identity digest and a cache holding exactly
the reservation of `collideA`. -/
theorem C10_witness :
    (checkDuplicate id ⟨false, false, true⟩ ["dedup:email:a:b:c"] collideB).1 = true :=
  (C10_fingerprint_collision id ⟨false, false, true⟩ ["dedup:email:a:b:c"] rfl
    (by decide)).2.2.2

/-- C6: for every valid input whose fingerprint key is live in the cache
(reserved within the last 24 hours) and whose cache read succeeds,
`sendMessage` enqueues nothing, writes nothing to the cache, and returns
`success = false`, a null `messageId`, the freshly generated `traceId`,
and the text `"Duplicate message detected"`. -/
theorem C6_duplicate_rejected (hash : String → String) (f : Faults)
    (cache : List String) (input : Input) (tid mid sid ts : String)
    (hvalid : validateInput input = none) (hget : f.getErr = false)
    (hmem : dedupKey hash input ∈ cache) :
    sendMessage hash f cache input tid mid sid ts =
      ⟨⟨false, none, tid, "Duplicate message detected"⟩, cache, []⟩ := by
  simp [sendMessage, hvalid, checkDuplicate, hget, hmem]

/-- Witness for C6: the resubmission scenario of the spec, with the
reservation of the success input live in the cache. -/
theorem C6_witness :
    sendMessage id noFaults [dedupKey id validInput] validInput "trace_1" "msg_1"
        "sub_1" "ts" =
      ⟨⟨false, none, "trace_1", "Duplicate message detected"⟩,
        [dedupKey id validInput], []⟩ :=
  C6_duplicate_rejected id noFaults [dedupKey id validInput] validInput "trace_1"
    "msg_1" "sub_1" "ts" (by decide) rfl (by simp)

/-- C7: for every input violating field validation (empty recipient or
body; missing subject for email; non-email-syntax recipient for email;
non-phone-syntax recipient for sms/whatsapp), `sendMessage` returns the
thrown validation error with its human-readable reason and has no side
effects: the cache is untouched and nothing is enqueued. -/
theorem C7_validation_no_side_effects (hash : String → String) (f : Faults)
    (cache : List String) (input : Input) (tid mid sid ts : String)
    (hviol : input.recipient = "" ∨ input.body = "" ∨
      (input.channel = .email ∧ input.subject = none) ∨
      (input.channel = .email ∧ isValidEmail input.recipient = false) ∨
      ((input.channel = .sms ∨ input.channel = .whatsapp) ∧
        isValidPhone input.recipient = false)) :
    ∃ reason, validateInput input = some reason ∧
      sendMessage hash f cache input tid mid sid ts =
        ⟨⟨false, none, tid, "Error: " ++ reason⟩, cache, []⟩ := by
  have hval : ∃ reason, validateInput input = some reason := by
    unfold validateInput
    split_ifs with h1 h2 h3 h4
    · exact ⟨_, rfl⟩
    · exact ⟨_, rfl⟩
    · exact ⟨_, rfl⟩
    · exact ⟨_, rfl⟩
    · exfalso
      rcases hviol with h | h | ⟨hc, hs⟩ | ⟨hc, he⟩ | ⟨hc, hp⟩
      · exact h1 (Or.inl h)
      · exact h1 (Or.inr h)
      · exact h2 ⟨hc, Or.inl hs⟩
      · exact h3 ⟨hc, by simp [he]⟩
      · exact h4 ⟨hc, by simp [hp]⟩
  obtain ⟨reason, hr⟩ := hval
  exact ⟨reason, hr, by simp [sendMessage, hr]⟩

/-- Witness for C7: the spec scenario
`{channel: "sms", recipient: "not-a-phone", body: "x"}`. -/
theorem C7_witness :
    ∃ reason, validateInput smsBadInput = some reason ∧
      sendMessage id noFaults [] smsBadInput "trace_1" "msg_1" "sub_1" "ts" =
        ⟨⟨false, none, "trace_1", "Error: " ++ reason⟩, [], []⟩ :=
  C7_validation_no_side_effects id noFaults [] smsBadInput "trace_1" "msg_1" "sub_1"
    "ts" (Or.inr (Or.inr (Or.inr (Or.inr ⟨Or.inl rfl, by decide⟩))))

/-- C4 counterexample: with a fresh fingerprint and a failing broker
submission, the caller does receive the routing-error outcome, but
partial state survives: the dedup reservation written by the duplicate
check is still in the cache after the failed routing call. This refutes
"no partial state remains". -/
theorem C4_counterexample :
    (sendMessage id sendFailFaults [] validInput "trace_1" "msg_1" "sub_1" "ts").resp =
      ⟨false, none, "trace_1", "Error: Failed to send message to queue"⟩ ∧
    dedupKey id validInput ∈
      (sendMessage id sendFailFaults [] validInput "trace_1" "msg_1" "sub_1" "ts").cache := by
  decide

/-- C4 as amended: when broker submission fails during routing, the
caller receives the routing-error outcome (`success = false`, null
`messageId`, `"Error: Failed to send message to queue"`) and nothing is
enqueued, but the dedup reservation for the fingerprint of the input — written
by the duplicate check before routing — survives the failed call. -/
theorem C4_routing_error_reservation_survives (hash : String → String) (f : Faults)
    (cache : List String) (input : Input) (tid mid sid ts : String)
    (hvalid : validateInput input = none) (hget : f.getErr = false)
    (hset : f.setErr = false) (hfresh : dedupKey hash input ∉ cache)
    (hsend : f.sendOk = false) :
    (sendMessage hash f cache input tid mid sid ts).resp =
      ⟨false, none, tid, "Error: Failed to send message to queue"⟩ ∧
    (sendMessage hash f cache input tid mid sid ts).enqueued = [] ∧
    dedupKey hash input ∈ (sendMessage hash f cache input tid mid sid ts).cache := by
  simp [sendMessage, hvalid, checkDuplicate, hget, hset, hfresh, hsend]

/-- Witness for the amended statement of C4 at the concrete routing-failure
run. -/
theorem C4_witness :
    (sendMessage id sendFailFaults [] validInput "trace_1" "msg_1" "sub_1" "ts").enqueued = [] ∧
    dedupKey id validInput ∈
      (sendMessage id sendFailFaults [] validInput "trace_1" "msg_1" "sub_1" "ts").cache :=
  ⟨(C4_routing_error_reservation_survives id sendFailFaults [] validInput "trace_1"
      "msg_1" "sub_1" "ts" (by decide) rfl rfl (by simp) rfl).2.1,
    (C4_routing_error_reservation_survives id sendFailFaults [] validInput "trace_1"
      "msg_1" "sub_1" "ts" (by decide) rfl rfl (by simp) rfl).2.2⟩

/-- C1 evaluated at the failing input: an email message with
`retryCount = 0 < maxRetries = 3` whose delivery action fails on every
attempt. The claim (and the retry documentation the repository itself ships) say the
executor sleeps `backoff[0] = 1s` in-process, increments `retryCount`,
and retries in the same process with no broker requeue; instead the
shipped handler catches the failure and returns `success = false`, so
`deliverWithRetry` performs no sleep and no retry, `retryCount` stays 0,
and the message is nacked back to the broker with `requeue = true`. -/
theorem C1_code_divergence :
    (deliverWithRetry (handleEmailDelivery failAction 0) 0 emailPayload 0 3 []).sleeps
        = [] ∧
    (deliverWithRetry (handleEmailDelivery failAction 0) 0 emailPayload 0 3 []).msg.retryCount
        = 0 ∧
    (processMessage (some emailPayload) "email" (HANDLERS failAction 0) []).broker
        = .nackRequeue ∧
    (processMessage (some emailPayload) "email" (HANDLERS failAction 0) []).writes
        = ["failed"] := by
  have hres : ((handleEmailDelivery failAction 0) 0 emailPayload []).res =
      .returned false (some "Simulated email delivery failure") := rfl
  have hd := deliverWithRetry_returned (handleEmailDelivery failAction 0) 0
    emailPayload 0 3 [] false (some "Simulated email delivery failure") hres
  have hp := processMessage_email_run failAction 0 emailPayload []
  exact ⟨by rw [hd], by rw [hd]; rfl, by rw [hp]; rfl, by rw [hp]; rfl⟩

/-- C2: for every message whose payload reaches the executor with
`retryCount ≥ maxRetries` and whose delivery action fails on the attempt,
the executor rejects the queue message without requeue (the configured
dead-letter route captures it) and never requeues it to its origin queue,
and the Delivery Record is upserted to `status = "failed"` with `failedAt`
set and the last error message. -/
theorem C2_exhaustion_dead_letter (p : Payload) (db : List DeliveryRec) (t : Nat)
    (action : Nat → Option String) (e : String)
    (hrc : p.maxRetries ≤ p.retryCount) (hact : action 0 = some e) :
    (processMessage (some p) "email" (HANDLERS action t) db).broker = .nackDLQ ∧
    (processMessage (some p) "email" (HANDLERS action t) db).broker ≠ .nackRequeue ∧
    (processMessage (some p) "email" (HANDLERS action t) db).writes = ["failed"] ∧
    ∃ r ∈ (processMessage (some p) "email" (HANDLERS action t) db).db,
      r.messageId = p.messageId ∧ r.status = "failed" ∧ r.failedAt = some t ∧
      r.errorMessage = some e := by
  have hp := processMessage_email_run action t p db
  rw [hact] at hp
  rw [hp]
  refine ⟨by simp [handleDeliveryError, hrc], by simp [handleDeliveryError, hrc],
    rfl, ?_⟩
  obtain ⟨r, hmem, h1, h2, _, h4, h5⟩ :=
    findOneAndUpdate_mem p (failedUpd "email" true e p.retryCount t) db
  exact ⟨r, hmem, h1, by simpa [failedUpd] using h2, h4 t rfl, h5 e rfl⟩

/-- Witness for C2: a payload carrying `retryCount = 3 = maxRetries` whose
delivery action fails. -/
theorem C2_witness :
    (processMessage (some { emailPayload with retryCount := 3 }) "email"
        (HANDLERS failAction 7) []).broker = .nackDLQ ∧
    (processMessage (some { emailPayload with retryCount := 3 }) "email"
        (HANDLERS failAction 7) []).broker ≠ .nackRequeue ∧
    (processMessage (some { emailPayload with retryCount := 3 }) "email"
        (HANDLERS failAction 7) []).writes = ["failed"] ∧
    ∃ r ∈ (processMessage (some { emailPayload with retryCount := 3 }) "email"
        (HANDLERS failAction 7) []).db,
      r.messageId = ({ emailPayload with retryCount := 3 } : Payload).messageId ∧
      r.status = "failed" ∧ r.failedAt = some 7 ∧
      r.errorMessage = some "Simulated email delivery failure" :=
  C2_exhaustion_dead_letter { emailPayload with retryCount := 3 } [] 7 failAction
    "Simulated email delivery failure" (by decide) rfl

/-- C3 counterexample: on the success scenario of the spec the persisted status
sequence is exactly `["delivered"]` — no `queued` and no `processing`
record is ever written, refuting the transitions
`queued → processing → delivered`; moreover a broker redelivery of the
same message whose action then fails overwrites the terminal `delivered`
record with `failed`, refuting "once terminal, no further transitions". -/
theorem C3_counterexample :
    (processMessage (some emailPayload) "email" (HANDLERS okAction 0) []).writes
        = ["delivered"] ∧
    "processing" ∉ (processMessage (some emailPayload) "email"
        (HANDLERS okAction 0) []).writes ∧
    ((processMessage (some emailPayload) "email" (HANDLERS failAction 1)
        ((processMessage (some emailPayload) "email" (HANDLERS okAction 0) []).db)).db.map
      fun r => r.status) = ["failed"] := by
  have h1 := processMessage_email_run okAction 0 emailPayload []
  refine ⟨by rw [h1]; rfl, by rw [h1]; decide, ?_⟩
  rw [h1, processMessage_email_run failAction 1]
  decide

/-- C3 as amended: the executor persists only the terminal statuses
`delivered` and `failed` (never `queued` or `processing`, for any consumed
message on any queue); a successful first attempt performs exactly one
status write, `delivered`, acknowledges the message, and leaves a record
with `status = "delivered"` and `deliveredAt` set. -/
theorem C3_terminal_statuses_only (action : Nat → Option String) (t : Nat)
    (parsed : Option Payload) (ct : String) (db : List DeliveryRec) (p : Payload) :
    (∀ w ∈ (processMessage parsed ct (HANDLERS action t) db).writes,
        w = "delivered" ∨ w = "failed") ∧
    (action 0 = none →
      (processMessage (some p) "email" (HANDLERS action t) db).broker = .ack ∧
      (processMessage (some p) "email" (HANDLERS action t) db).writes = ["delivered"] ∧
      ∃ r ∈ (processMessage (some p) "email" (HANDLERS action t) db).db,
        r.messageId = p.messageId ∧ r.status = "delivered" ∧
        r.deliveredAt = some t) := by
  constructor
  · cases parsed with
    | none => simp [processMessage]
    | some q =>
        by_cases h1 : ct = "email"
        · subst h1
          rw [processMessage_email_run]
          cases action 0 <;> simp
        · by_cases h2 : ct = "sms"
          · subst h2
            rw [processMessage_sms_run]
            cases action 0 <;> simp
          · by_cases h3 : ct = "whatsapp"
            · subst h3
              rw [processMessage_whatsapp_run]
              cases action 0 <;> simp
            · have hh : HANDLERS action t ct = none := by
                simp [HANDLERS, h1, h2, h3]
              simp [processMessage, hh]
  · intro hact
    have hp := processMessage_email_run action t p db
    rw [hact] at hp
    rw [hp]
    refine ⟨rfl, rfl, ?_⟩
    obtain ⟨r, hmem, h1, h2, h3, _, _⟩ :=
      findOneAndUpdate_mem p (deliveredUpd "email" true t) db
    exact ⟨r, hmem, h1, by simpa [deliveredUpd] using h2, h3 t rfl⟩

/-- Witness for the amended statement of C3: the success scenario on the email
queue with an empty store. -/
theorem C3_witness :
    (processMessage (some emailPayload) "email" (HANDLERS okAction 2) []).broker
        = .ack ∧
    (processMessage (some emailPayload) "email" (HANDLERS okAction 2) []).writes
        = ["delivered"] ∧
    ∃ r ∈ (processMessage (some emailPayload) "email" (HANDLERS okAction 2) []).db,
      r.messageId = emailPayload.messageId ∧ r.status = "delivered" ∧
      r.deliveredAt = some 2 :=
  (C3_terminal_statuses_only okAction 2 none "email" [] emailPayload).2 rfl

/-- C5 counterexample: a malformed payload (the `JSON.parse` throw path)
and an unknown-channel message are both nacked with `requeue = true` back
to the origin queue, not "rejected without requeue immediately" as
claimed: `handleDeliveryError` runs with the defaults
`retryCount = 0 < maxRetries = 3` and takes its requeue branch. -/
theorem C5_counterexample :
    (processMessage none "email" (HANDLERS okAction 0) []).broker = .nackRequeue ∧
    (processMessage (some emailPayload) "fax" (HANDLERS okAction 0) []).broker
        = .nackRequeue := by
  decide

/-- C5 as amended: a malformed payload or unknown channel causes no
delivery attempt (no sleeps, no status writes, store untouched), but the
message is nacked WITH requeue back to its origin queue whenever the
defaulted or carried `retryCount` is below `maxRetries` (as it always is
for the parse-failure defaults 0 and 3). -/
theorem C5_malformed_or_unknown_requeued (ct : String)
    (hf : String → Option Handler) (db : List DeliveryRec) (p : Payload)
    (hunknown : hf ct = none) (hrc : p.retryCount < p.maxRetries) :
    processMessage none ct hf db = ⟨.nackRequeue, [], db, []⟩ ∧
    processMessage (some p) ct hf db = ⟨.nackRequeue, [], db, []⟩ := by
  constructor
  · simp [processMessage, handleDeliveryError]
  · simp [processMessage, hunknown, handleDeliveryError, Nat.not_le.mpr hrc]

/-- Witness for the amended statement of C5: an unparseable message on the
email queue and a well-formed message on an unconsumed queue name. -/
theorem C5_witness :
    processMessage none "fax" (HANDLERS okAction 0) [] = ⟨.nackRequeue, [], [], []⟩ ∧
    processMessage (some emailPayload) "fax" (HANDLERS okAction 0) [] =
      ⟨.nackRequeue, [], [], []⟩ :=
  C5_malformed_or_unknown_requeued "fax" (HANDLERS okAction 0) [] emailPayload rfl
    (by decide)

end CommsCore
